import Mathlib

/-
  Verification development for the RareAgent repository.

  Shallow embedding of the orchestration state machine (orchestrator.py),
  the agent steps (agents/explorer.py, agents/proponent.py,
  agents/skeptic.py, agents/validator.py) and the UniProt client layer
  (core/uniprot_api.py).  Python dictionaries are modelled as structures,
  `dict.get` with a default as `Option.getD`, exceptions as an explicit
  error constructor, and the opaque LLM collaborators as oracles supplied
  to each step function.
-/

namespace RareAgent

/- ===================== Python string semantics ===================== -/

/-- Lower-casing of a string, character by character (embeds Python
`str.lower` on the ASCII strings the code manipulates). -/
def lowerStr (s : String) : String :=
  String.mk (s.toList.map Char.toLower)

/-- The apostrophe character, written by code point to keep sources plain. -/
def aposChar : Char := Char.ofNat 39

/-- Removal of all apostrophes (embeds Python `str.replace` of the
apostrophe by the empty string). -/
def stripApos (s : String) : String :=
  String.mk (s.toList.filter (fun c => c ≠ aposChar))

/-- Whitespace trimming at both ends (embeds Python `str.strip()`),
implemented on character lists so that it evaluates by kernel reduction. -/
def pyStrip (s : String) : String :=
  String.mk (((s.toList.dropWhile Char.isWhitespace).reverse.dropWhile
    Char.isWhitespace).reverse)

/-- Boolean test that the second character list starts with the first. -/
def charsStartWith : List Char → List Char → Bool
  | [], _ => true
  | _ :: _, [] => false
  | a :: as, b :: bs => a == b && charsStartWith as bs

/-- Boolean substring test on character lists: `needle` occurs contiguously
inside `hay`. -/
def charsContain (needle : List Char) : List Char → Bool
  | [] => needle.isEmpty
  | b :: bs => charsStartWith needle (b :: bs) || charsContain needle bs

/-- Embeds the Python membership test `needle in hay` on strings. -/
def pyIn (needle hay : String) : Bool :=
  charsContain needle.toList hay.toList

/- ===================== UniProt record model ===================== -/

/-- Disease sub-object of a UniProt DISEASE comment, as read by
validator.py lines 168-177: each field stands for `disease_obj.get(key, "")`
(a missing key reads as the empty string).  A comment whose `disease` entry
is absent or an empty dictionary is modelled as `none` at the use site. -/
structure DiseaseObj where
  diseaseId : String := ""
  description : String := ""
  acronym : String := ""
deriving Repr, DecidableEq

/-- One entry of a UniProt `comments` list.  `note` holds the extracted
note text (validator.py lines 156-161 normalise dict/str shapes to one
string; explorer.py line 66 reads the same `text` field, where a missing
field is `none`). -/
structure UComment where
  commentType : String := ""
  note : Option String := none
  disease : Option DiseaseObj := none
deriving Repr, DecidableEq

/-- Value of `genes[i].geneName` in a UniProt entry. -/
structure UGeneName where
  value : Option String := none
deriving Repr, DecidableEq

/-- One entry of the `genes` list of a UniProt entry. -/
structure UGene where
  geneName : Option UGeneName := none
deriving Repr, DecidableEq

/-- A UniProt protein entry, restricted to the fields the repository
reads: `primaryAccession`, `genes`, `comments` and
`proteinDescription.recommendedName.fullName.value` (flattened here as
`recommendedFullName`; a missing level of the nested dictionaries reads
as `none`). -/
structure UniProtEntry where
  primaryAccession : Option String := none
  genes : List UGene := []
  comments : List UComment := []
  recommendedFullName : Option String := none
deriving Repr, DecidableEq

/- ===================== Validator: disease link ===================== -/

/-- Normalisation the validator applies to the subject string
(validator.py line 148): lower-case, strip apostrophes, trim whitespace. -/
def normalizeSubject (s : String) : String :=
  pyStrip (stripApos (lowerStr s))

/-- Normalisation the validator applies to every candidate string
(validator.py lines 163, 170-172, 183): lower-case and strip apostrophes,
with no trimming. -/
def normCand (s : String) : String :=
  stripApos (lowerStr s)

/-- Match test for a single comment inside the loop of validator.py
lines 152-178, given the already-normalised subject `search_term`:
a DISEASE comment matches when the subject occurs inside the cleaned note
text, or — when a non-empty disease object is present — when the subject
occurs inside the cleaned `diseaseId` (or that name inside the subject),
inside the cleaned `description`, or inside the cleaned `acronym` (or the
acronym inside the subject). -/
def commentMatches (search_term : String) (c : UComment) : Bool :=
  if c.commentType == "DISEASE" then
    let note_str_clean := normCand (c.note.getD "")
    if pyIn search_term note_str_clean then true
    else
      match c.disease with
      | none => false
      | some d =>
        let db_disease_name := normCand d.diseaseId
        let db_disease_desc := normCand d.description
        let db_disease_acr := normCand d.acronym
        pyIn search_term db_disease_name || pyIn db_disease_name search_term ||
        pyIn search_term db_disease_desc ||
        pyIn search_term db_disease_acr || pyIn db_disease_acr search_term
  else false

/-- Embeds `ValidatorAgent._step_5_verify_disease_link` (validator.py
lines 140-186): an empty subject fails outright; otherwise the subject is
normalised, every comment is scanned with `commentMatches`, and on no
match the fallback checks the subject inside the cleaned recommended full
protein name. -/
def step5VerifyDiseaseLink (uniprot_entry : UniProtEntry) (disease_name : String) : Bool :=
  if disease_name == "" then false
  else
    let search_term := normalizeSubject disease_name
    if uniprot_entry.comments.any (commentMatches search_term) then true
    else pyIn search_term (normCand (uniprot_entry.recommendedFullName.getD ""))

/-- Modelled from the claim text (not from the code): a disease-link
predicate in which the subject appearing inside a candidate, or the
candidate appearing inside the subject, counts as a match for every one of
the four candidate fields (note, formal disease name, acronym,
description), with the same recommended-full-name fallback. -/
def specCandMatch (search_term cand : String) : Bool :=
  pyIn search_term (normCand cand) || pyIn (normCand cand) search_term

/-- Modelled from the claim text (not from the code): the disease-link
check as C3 states it, with symmetric containment on all candidate
fields. -/
def specDiseaseLinked (uniprot_entry : UniProtEntry) (subject : String) : Bool :=
  let st := normalizeSubject subject
  let annMatch := uniprot_entry.comments.any (fun c =>
    c.commentType == "DISEASE" &&
      (specCandMatch st (c.note.getD "") ||
        (match c.disease with
         | some d =>
            specCandMatch st d.diseaseId || specCandMatch st d.acronym ||
            specCandMatch st d.description
         | none => false)))
  annMatch || pyIn st (normCand (uniprot_entry.recommendedFullName.getD ""))

/- ===================== Shared record model ===================== -/

/-- The validation report the validator attaches to a hypothesis
(validator.py lines 37-44). -/
structure ValidationReport where
  step_1_cid_found : Bool := false
  step_2_target_match : Bool := false
  step_3_human_reviewed : Bool := false
  step_4_disease_link : Bool := false
  overall_status : String := "REJECTED"
  reason : String := ""
deriving Repr, DecidableEq

/-- A hypothesis record as threaded through the shared state.  Optional
fields model dictionary keys that are absent until an agent sets them. -/
structure Hypothesis where
  drug_name : String := ""
  target_gene : String := ""
  mechanism : String := ""
  rationale : String := ""
  source : String := ""
  status : String := ""
  cid : Option Nat := none
  skeptic_critique : Option String := none
  skeptic_safety : Option String := none
  skeptic_verdict : Option String := none
  validation : Option ValidationReport := none
deriving Repr, DecidableEq

/-- A genetic-target descriptor built by the explorer (explorer.py
lines 68-73); fields are optional exactly where the Python `get` chains
can produce `None`. -/
structure GeneticTarget where
  gene_name : Option String := none
  uniprot_id : Option String := none
  protein_name : Option String := none
  phenotype_association : Option String := none
deriving Repr, DecidableEq

/-- A literature-evidence record (explorer.py line 42). -/
structure Evidence where
  source : String := ""
  id : String := ""
  note : String := ""
deriving Repr, DecidableEq

/-- The shared record (`RareAgentState` of core/types.py). -/
structure AgentState where
  current_disease : String := ""
  genetic_targets : List GeneticTarget := []
  hypotheses : List Hypothesis := []
  evidence : List Evidence := []
  debate_history : List String := []
  final_ranking : Option (List Hypothesis) := none
  retry_count : Nat := 0
  last_rejection_reason : Option String := none
  evaluated_drugs : List String := []
deriving Repr, DecidableEq

/-- A partial update returned by one step: a field is `some v` exactly
when the returned Python dictionary carries the corresponding key (with
value `v`, which for `last_rejection_reason` may itself be `None`). -/
structure StateUpdate where
  evidence : Option (List Evidence) := none
  genetic_targets : Option (List GeneticTarget) := none
  hypotheses : Option (List Hypothesis) := none
  debate_history : Option (List String) := none
  retry_count : Option Nat := none
  last_rejection_reason : Option (Option String) := none
  evaluated_drugs : Option (List String) := none
deriving Repr, DecidableEq

/-- Merging of a declared update into the shared record: every key the
update carries replaces the field, every absent key leaves it (the
LangGraph default reducer used by orchestrator.py). -/
def applyUpdate (st : AgentState) (u : StateUpdate) : AgentState :=
  { st with
    evidence := u.evidence.getD st.evidence,
    genetic_targets := u.genetic_targets.getD st.genetic_targets,
    hypotheses := u.hypotheses.getD st.hypotheses,
    debate_history := u.debate_history.getD st.debate_history,
    retry_count := u.retry_count.getD st.retry_count,
    last_rejection_reason := u.last_rejection_reason.getD st.last_rejection_reason,
    evaluated_drugs := u.evaluated_drugs.getD st.evaluated_drugs }

/-- Outcome of a call into an external collaborator or client-layer
helper: a returned value, or a raised exception carrying its message. -/
inductive StepRes (α : Type) where
  | val : α → StepRes α
  | exc : String → StepRes α
deriving Repr, DecidableEq

/- ===================== Validator agent ===================== -/

/-- External observations driving `ValidatorAgent.run` for one
hypothesis: the compound lookup of `_step_1_get_cid` (which swallows its
own exceptions into `none`, but the surrounding `try` of run lines 46-90
also catches anything escaping the call site, modelled by `exc`), the
protein lookup of `_step_3_4_verify_target` (likewise), and the
possibility of an unexpected exception inside the step-5 disease-link
check.  `step5 = StepRes.val ()` means step 5 computes normally from the
entry returned by step 3/4. -/
structure ValOracle where
  step1 : StepRes (Option Nat) := StepRes.val none
  step34 : StepRes (Option UniProtEntry) := StepRes.val none
  step5 : StepRes Unit := StepRes.val ()
deriving Repr, DecidableEq

/-- The freshly initialised report of validator.py lines 37-44. -/
def baseReport : ValidationReport := {}

/-- Processing of one hypothesis by the loop body of
`ValidatorAgent.run` (validator.py lines 30-93): short-circuit at the
first failing check, record `Error: <message>` when an exception is
caught, approve with all four flags when every check passes. -/
def processHypothesis (o : ValOracle) (current_disease : String) (h : Hypothesis) : Hypothesis :=
  match o.step1 with
  | .exc m =>
    let rep : ValidationReport := { baseReport with reason := "Error: " ++ m }
    { h with validation := some rep }
  | .val none =>
    let rep : ValidationReport := { baseReport with reason := "Drug CID not found." }
    { h with validation := some rep }
  | .val (some cid) =>
    let h1 := { h with cid := some cid }
    match o.step34 with
    | .exc m =>
      let rep : ValidationReport :=
        { baseReport with step_1_cid_found := true, reason := "Error: " ++ m }
      { h1 with validation := some rep }
    | .val none =>
      let reason :=
        "Target " ++ h.target_gene ++ " not found as valid Human Reviewed protein."
      let rep : ValidationReport :=
        { baseReport with step_1_cid_found := true, reason := reason }
      { h1 with validation := some rep }
    | .val (some uniprot_entry) =>
      match o.step5 with
      | .exc m =>
        let rep : ValidationReport :=
          { baseReport with step_1_cid_found := true, step_2_target_match := true,
                            step_3_human_reviewed := true, reason := "Error: " ++ m }
        { h1 with validation := some rep }
      | .val _ =>
        if step5VerifyDiseaseLink uniprot_entry current_disease then
          let rep : ValidationReport :=
            { step_1_cid_found := true, step_2_target_match := true,
              step_3_human_reviewed := true, step_4_disease_link := true,
              overall_status := "APPROVED",
              reason := "All deterministic checks passed." }
          { h1 with validation := some rep }
        else
          let reason :=
            "Target " ++ h.target_gene ++ " not confirmed linked to " ++
              current_disease ++ "."
          let rep : ValidationReport :=
            { baseReport with step_1_cid_found := true, step_2_target_match := true,
                              step_3_human_reviewed := true, reason := reason }
          { h1 with validation := some rep }

/-- Validation of the whole hypotheses list in order (the `for` loop of
validator.py line 30), with `os i` the observations made while processing
the hypothesis at position `i`. -/
def validateAll (os : Nat → ValOracle) (current_disease : String) :
    Nat → List Hypothesis → List Hypothesis
  | _, [] => []
  | i, h :: t => processHypothesis (os i) current_disease h :: validateAll os current_disease (i + 1) t

/-- Embeds `ValidatorAgent.run` (validator.py lines 22-114): validate
every hypothesis, then increment the retry counter and record the
rejection reason exactly when the latest validated hypothesis is not
APPROVED. -/
def validatorRun (os : Nat → ValOracle) (st : AgentState) : StateUpdate :=
  let validated_hypotheses := validateAll os st.current_disease 0 st.hypotheses
  match validated_hypotheses.getLast? with
  | none =>
      { hypotheses := some validated_hypotheses,
        retry_count := some st.retry_count,
        last_rejection_reason := some none }
  | some latest =>
    let latest_status := ((latest.validation.map ValidationReport.overall_status).getD "REJECTED")
    if latest_status != "APPROVED" then
      { hypotheses := some validated_hypotheses,
        retry_count := some (st.retry_count + 1),
        last_rejection_reason := some (some
          ((latest.validation.map ValidationReport.reason).getD "Unknown validator error")) }
    else
      { hypotheses := some validated_hypotheses,
        retry_count := some st.retry_count,
        last_rejection_reason := some none }

/- ===================== Proponent agent ===================== -/

/-- Structured output of the opaque hypothesis-generation collaborator
(proponent.py lines 23-26). -/
structure Prediction where
  drug_name : String := ""
  target_gene : String := ""
  mechanism : String := ""
  rationale : String := ""
deriving Repr, DecidableEq

/-- Embeds `ProponentAgent.run` (proponent.py lines 37-98): with no
genetic targets, or when the collaborator raises, return the hypotheses
unchanged; otherwise append the new hypothesis and unconditionally append
the proposed drug name to the taboo list.  The prompt strings built from
the state flow only into the opaque collaborator and are absorbed by the
oracle. -/
def proponentRun (o : StepRes Prediction) (st : AgentState) : StateUpdate :=
  if st.genetic_targets.isEmpty then
    { hypotheses := some st.hypotheses }
  else
    match o with
    | .exc _ => { hypotheses := some st.hypotheses }
    | .val prediction =>
      let new_hypothesis : Hypothesis :=
        { drug_name := prediction.drug_name,
          target_gene := prediction.target_gene,
          mechanism := prediction.mechanism,
          rationale := prediction.rationale,
          source := "ProponentAgent",
          status := "PROPOSED" }
      { hypotheses := some (st.hypotheses ++ [new_hypothesis]),
        evaluated_drugs := some (st.evaluated_drugs ++ [prediction.drug_name]) }

/- ===================== Skeptic agent ===================== -/

/-- Structured output of the opaque critique collaborator (skeptic.py
lines 23-25). -/
structure Critique where
  critique : String := ""
  safety_concerns : String := ""
  verdict : String := ""
deriving Repr, DecidableEq

/-- Python truthiness of an optional string: an absent value and the
empty string are both falsy. -/
def pyTruthy (v : Option String) : Bool :=
  match v with
  | none => false
  | some s => s != ""

/-- Embeds `SkepticAgent.run` (skeptic.py lines 36-91): no hypotheses is
answered with an empty list and the unchanged history; a latest
hypothesis that already carries a (truthy) verdict is returned untouched;
otherwise the collaborator is consulted — on failure the step returns the
empty update, on success the latest hypothesis gains the critique fields
and one formatted entry is appended to the debate history. -/
def skepticRun (o : StepRes Critique) (st : AgentState) : StateUpdate :=
  match st.hypotheses.getLast? with
  | none => { hypotheses := some [], debate_history := some st.debate_history }
  | some latest_hypothesis =>
    if pyTruthy latest_hypothesis.skeptic_verdict then
      { hypotheses := some st.hypotheses, debate_history := some st.debate_history }
    else
      match o with
      | .exc _ => {}
      | .val prediction =>
        let critique_entry :=
          "### Skeptic Critique: " ++ latest_hypothesis.drug_name ++
          "\n**Verdict**: " ++ prediction.verdict ++
          "\n**Safety Concerns**: " ++ prediction.safety_concerns ++
          "\n**Analysis**: " ++ prediction.critique ++ "\n"
        let updated :=
          { latest_hypothesis with
            skeptic_critique := some prediction.critique,
            skeptic_safety := some prediction.safety_concerns,
            skeptic_verdict := some prediction.verdict }
        { hypotheses := some (st.hypotheses.dropLast ++ [updated]),
          debate_history := some (st.debate_history ++ [critique_entry]) }

/- ===================== Explorer agent ===================== -/

/-- Target extraction from one UniProt entry (explorer.py lines 57-74). -/
def extractTarget (prot : UniProtEntry) : GeneticTarget :=
  let gene_name : Option String :=
    match prot.genes with
    | [] => some "Unknown"
    | g :: _ =>
      match g.geneName with
      | none => none
      | some gn => gn.value
  let disease_comment := prot.comments.find? (fun c => c.commentType == "DISEASE")
  let phenotype : Option String :=
    match disease_comment with
    | some c => c.note
    | none => some "No specific phenotype description."
  { gene_name := gene_name,
    uniprot_id := prot.primaryAccession,
    protein_name := prot.recommendedFullName,
    phenotype_association := phenotype }

/-- Embeds `ExplorerAgent.run` (explorer.py lines 24-91).  `pm` is the
extracted PubMed id list (an exception degrades to no evidence), `up` the
UniProt protein list (an exception degrades to no targets), and `shuffle`
stands for `random.shuffle`, applied only to a non-empty target list. -/
def explorerRun (pm : StepRes (List String)) (up : StepRes (List UniProtEntry))
    (shuffle : List GeneticTarget → List GeneticTarget) (st : AgentState) : StateUpdate :=
  if st.current_disease == "" then
    { evidence := some [], genetic_targets := some [] }
  else
    let evidence :=
      match pm with
      | .exc _ => []
      | .val uids => uids.map (fun uid =>
          { source := "PubMed", id := uid,
            note := "Linked to " ++ st.current_disease })
    let genetic_targets :=
      match up with
      | .exc _ => []
      | .val proteins => proteins.map extractTarget
    let shuffled := if genetic_targets.isEmpty then genetic_targets else shuffle genetic_targets
    { evidence := some evidence, genetic_targets := some shuffled }

/- ===================== Orchestrator decision ===================== -/

/-- Targets of the conditional edge out of the validator node. -/
inductive Route where
  | proponent
  | endRun
deriving Repr, DecidableEq

/-- Retry ceiling of orchestrator.py line 15. -/
def MAX_HYPOTHESES : Nat := 5

/-- Embeds `should_continue` (orchestrator.py lines 43-74): end on an
empty hypotheses list; end when the latest hypothesis is both APPROVED by
the validator and not judged REJECT or RISKY by the skeptic; otherwise
loop back to the proponent while the retry counter is below the ceiling,
and end once it is not. -/
def should_continue (st : AgentState) : Route :=
  match st.hypotheses.getLast? with
  | none => Route.endRun
  | some latest_hypothesis =>
    let validation := latest_hypothesis.validation
    let skeptic_verdict := latest_hypothesis.skeptic_verdict.getD "UNKNOWN"
    let is_valid := (validation.map ValidationReport.overall_status) == some "APPROVED"
    let is_safe := (skeptic_verdict != "REJECT") && (skeptic_verdict != "RISKY")
    if is_valid && is_safe then Route.endRun
    else if st.retry_count < MAX_HYPOTHESES then Route.proponent
    else Route.endRun

/- ===================== UniProt client layer ===================== -/

/-- Raw material of one paginated HTTP response: the `results` payload
(empty when the key is missing) and the raw `link` header when present. -/
structure PageResp (α : Type) where
  results : List α := []
  linkHeader : Option String := none
deriving Repr, DecidableEq

/-- Slice `link[i1+1 : i2]` of `UniProtAPI._get_next_link` line 28, with
`i1`/`i2` the positions of the first angle brackets; `none` models the
`ValueError` Python raises when a bracket is missing (never reached on
well-formed headers). -/
def extractAngle (link : String) : Option String :=
  match link.toList.indexOf? (Char.ofNat 60), link.toList.indexOf? (Char.ofNat 62) with
  | some i1, some i2 => some (String.mk ((link.toList.drop (i1 + 1)).take (i2 - (i1 + 1))))
  | _, _ => none

/-- Scan of the comma-separated header entries (lines 25-28 of
core/uniprot_api.py): the first entry containing `rel="next"` is sliced
between its angle brackets. -/
def findNextIn : List String → Option String
  | [] => none
  | l :: ls => if pyIn "rel=\"next\"" l then extractAngle l else findNextIn ls

/-- Splitting at every comma (embeds Python `str.split(",")`),
implemented on character lists so that it evaluates by kernel
reduction. -/
def splitCommaAux : List Char → List Char → List String
  | acc, [] => [String.mk acc.reverse]
  | acc, c :: cs =>
    if c == Char.ofNat 44 then String.mk acc.reverse :: splitCommaAux [] cs
    else splitCommaAux (c :: acc) cs

/-- Python `links.split(",")`. -/
def pySplitComma (s : String) : List String :=
  splitCommaAux [] s.toList

/-- Embeds `UniProtAPI._get_next_link` (core/uniprot_api.py lines
21-29). -/
def getNextLink (linkHeader : Option String) : Option String :=
  match linkHeader with
  | none => none
  | some links => findNextIn (pySplitComma links)

/-- Embeds the pagination loop of `UniProtAPI.get_uniprot_data`
(core/uniprot_api.py lines 43-66, `format="json"` path, the one the
repository uses): each response extends the accumulator with its
`results` payload; the loop follows the `link` header while it yields a
next URL.  The argument lists the successive responses the server
produces; running out of responses while a next link is still present
models the caught `RequestException` that breaks the loop with the
partial result. -/
def getUniprotData {α : Type} : List (PageResp α) → List α
  | [] => []
  | r :: rs =>
    r.results ++
      (match getNextLink r.linkHeader with
       | none => []
       | some _ => getUniprotData rs)

/-- Action taken by one iteration of the status-polling loop of
`UniProtAPI.get_id_mapping_results` (core/uniprot_api.py lines 94-116) on
one parsed status response (`none` models a body without a `jobStatus`
key). -/
inductive PollAction where
  | keepPolling
  | fetchResults
  | fatal
deriving Repr, DecidableEq

/-- One iteration of the polling loop: NEW and RUNNING sleep and poll
again; FINISHED breaks to the results fetch; FAILED raises; any other
status value matches no branch of the elif chain and the `while True`
loop polls again; a body without a `jobStatus` key logs a warning and
breaks to the results fetch. -/
def pollStep (resp : Option String) : PollAction :=
  match resp with
  | some s =>
    if s == "RUNNING" || s == "NEW" then PollAction.keepPolling
    else if s == "FINISHED" then PollAction.fetchResults
    else if s == "FAILED" then PollAction.fatal
    else PollAction.keepPolling
  | none => PollAction.fetchResults

/-- Result of the polling phase once it stops. -/
inductive PollOutcome where
  | finished
  | failed
deriving Repr, DecidableEq

/-- The `while True` polling loop, fuelled: `sts i` is the i-th status
response; `none` as a result means the loop is still polling after the
given number of iterations (the source loop has no ceiling of its own). -/
def pollLoop (sts : Nat → Option String) : Nat → Nat → Option PollOutcome
  | 0, _ => none
  | fuel + 1, i =>
    match pollStep (sts i) with
    | PollAction.keepPolling => pollLoop sts fuel (i + 1)
    | PollAction.fetchResults => some PollOutcome.finished
    | PollAction.fatal => some PollOutcome.failed

/-- Polling phase of `get_id_mapping_results`, started at the first
status response. -/
def idMappingPoll (sts : Nat → Option String) (fuel : Nat) : Option PollOutcome :=
  pollLoop sts fuel 0

/-- Embeds `UniProtAPI.get_id_mapping_results` (core/uniprot_api.py
lines 87-137): poll until the loop stops, then either raise the job
failure or perform the single cursor-link-paginated results fetch (the
loop of lines 123-135, structurally identical to the one of
`get_uniprot_data`).  `none` means the poll is still running after `fuel`
iterations. -/
def getIdMappingResults {α : Type} (job_id : String) (sts : Nat → Option String)
    (pages : List (PageResp α)) (fuel : Nat) : Option (Except String (List α)) :=
  match idMappingPoll sts fuel with
  | none => none
  | some PollOutcome.failed => some (Except.error ("Job " ++ job_id ++ " failed."))
  | some PollOutcome.finished => some (Except.ok (getUniprotData pages))

/- ===================== Helper lemmas ===================== -/

theorem ne_empty_of_length_ne (s : String) (h : s.length ≠ 0) : s ≠ "" :=
  fun hc => h (by rw [hc]; rfl)

theorem err_reason_ne_empty (m : String) : "Error: " ++ m ≠ "" := by
  apply ne_empty_of_length_ne
  rw [String.length_append]
  have h7 : ("Error: ").length = 7 := rfl
  omega

theorem notfound_reason_ne_empty (g : String) :
    "Target " ++ g ++ " not found as valid Human Reviewed protein." ≠ "" := by
  apply ne_empty_of_length_ne
  simp only [String.length_append]
  have h7 : ("Target ").length = 7 := rfl
  omega

theorem notlinked_reason_ne_empty (g d : String) :
    "Target " ++ g ++ " not confirmed linked to " ++ d ++ "." ≠ "" := by
  apply ne_empty_of_length_ne
  simp only [String.length_append]
  have h7 : ("Target ").length = 7 := rfl
  omega

theorem getLast_append_single {α : Type} (l : List α) (a : α) :
    (l ++ [a]).getLast? = some a := by
  simp

theorem validateAll_length (os : Nat → ValOracle) (d : String) :
    ∀ (i : Nat) (hs : List Hypothesis), (validateAll os d i hs).length = hs.length := by
  intro i hs
  induction hs generalizing i with
  | nil => rfl
  | cons a t ih => simp [validateAll, ih]

theorem validateAll_append (os : Nat → ValOracle) (d : String)
    (l : List Hypothesis) (h : Hypothesis) :
    ∀ i, validateAll os d i (l ++ [h]) =
      validateAll os d i l ++ [processHypothesis (os (i + l.length)) d h] := by
  induction l with
  | nil => intro i; simp [validateAll]
  | cons a t ih =>
    intro i
    have harith : i + 1 + t.length = i + (a :: t).length := by
      simp [List.length_cons]; omega
    simp only [List.cons_append, validateAll, List.append_eq, ih (i + 1), harith]

/- ===================== Claim theorems ===================== -/

/-- C1: for every hypothesis processed by the validator step, the attached
validation report has overall status APPROVED exactly when all four boolean
checks are true, and carries a non-empty reason whenever the status is
REJECTED — including on the path where an unexpected exception is caught
during a check. -/
theorem validator_report_invariant (o : ValOracle) (d : String) (h : Hypothesis) :
    ∃ rep, (processHypothesis o d h).validation = some rep ∧
      (rep.overall_status = "APPROVED" ↔
        (rep.step_1_cid_found = true ∧ rep.step_2_target_match = true ∧
         rep.step_3_human_reviewed = true ∧ rep.step_4_disease_link = true)) ∧
      (rep.overall_status = "REJECTED" → rep.reason ≠ "") := by
  obtain ⟨s1, s34, s5⟩ := o
  cases s1 with
  | exc m =>
    exact ⟨_, rfl, by simp <;> decide, fun _ => err_reason_ne_empty m⟩
  | val oc =>
    cases oc with
    | none =>
      exact ⟨_, rfl, by simp <;> decide, fun _ => by decide⟩
    | some cid =>
      cases s34 with
      | exc m =>
        exact ⟨_, rfl, by simp <;> decide, fun _ => err_reason_ne_empty m⟩
      | val oe =>
        cases oe with
        | none =>
          exact ⟨_, rfl, by simp <;> decide,
            fun _ => notfound_reason_ne_empty h.target_gene⟩
        | some entry =>
          cases s5 with
          | exc m =>
            exact ⟨_, rfl, by simp <;> decide, fun _ => err_reason_ne_empty m⟩
          | val u =>
            simp only [processHypothesis]
            by_cases hlink : step5VerifyDiseaseLink entry d
            · rw [if_pos hlink]
              exact ⟨_, rfl, by simp <;> decide, fun habs => absurd habs (by decide)⟩
            · rw [if_neg hlink]
              exact ⟨_, rfl, by simp <;> decide,
                fun _ => notlinked_reason_ne_empty h.target_gene d⟩

/-- C2: after the validator step, the workflow ends on an empty hypotheses
list; otherwise, with validity read from the latest validation status and
safety from the latest skeptic verdict, it ends when both hold, loops back
to the proponent exactly when they do not both hold and the retry count is
below the ceiling of 5, and ends once the retry count has reached the
ceiling. -/
theorem should_continue_decision (st : AgentState) :
    (st.hypotheses = [] → should_continue st = Route.endRun) ∧
    (∀ l h, st.hypotheses = l ++ [h] →
      ((((h.validation.map ValidationReport.overall_status) == some "APPROVED") &&
        (((h.skeptic_verdict.getD "UNKNOWN") != "REJECT") &&
         ((h.skeptic_verdict.getD "UNKNOWN") != "RISKY"))) = true →
        should_continue st = Route.endRun) ∧
      ((((h.validation.map ValidationReport.overall_status) == some "APPROVED") &&
        (((h.skeptic_verdict.getD "UNKNOWN") != "REJECT") &&
         ((h.skeptic_verdict.getD "UNKNOWN") != "RISKY"))) = false →
        (st.retry_count < MAX_HYPOTHESES → should_continue st = Route.proponent) ∧
        (MAX_HYPOTHESES ≤ st.retry_count → should_continue st = Route.endRun))) := by
  constructor
  · intro he
    unfold should_continue
    rw [he]
    rfl
  · intro l h hst
    constructor
    · intro hcond
      unfold should_continue
      rw [hst, getLast_append_single]
      simp only [hcond, if_true]
    · intro hcond
      constructor
      · intro hlt
        unfold should_continue
        rw [hst, getLast_append_single]
        simp only [hcond, Bool.false_eq_true, if_false, hlt, if_true]
      · intro hge
        unfold should_continue
        rw [hst, getLast_append_single]
        have hnlt : ¬ st.retry_count < MAX_HYPOTHESES := by omega
        simp only [hcond, Bool.false_eq_true, if_false, hnlt]

theorem commentMatches_iff (st : String) (c : UComment) :
    commentMatches st c = true ↔
      (c.commentType = "DISEASE" ∧
        (pyIn st (normCand (c.note.getD "")) = true ∨
         ∃ d, c.disease = some d ∧
           (pyIn st (normCand d.diseaseId) = true ∨
            pyIn (normCand d.diseaseId) st = true ∨
            pyIn st (normCand d.description) = true ∨
            pyIn st (normCand d.acronym) = true ∨
            pyIn (normCand d.acronym) st = true))) := by
  unfold commentMatches
  by_cases ht : c.commentType == "DISEASE"
  · rw [if_pos ht]
    have ht2 : c.commentType = "DISEASE" := by
      rwa [beq_iff_eq] at ht
    by_cases hn : pyIn st (normCand (c.note.getD ""))
    · rw [if_pos hn]
      simp [ht2, hn]
    · rw [if_neg hn]
      cases hd : c.disease with
      | none =>
        simp [ht2, hd]
        simpa using hn
      | some dobj =>
        simp only [ht2, hd, true_and, Option.some.injEq, Bool.or_eq_true]
        constructor
        · intro hor
          refine Or.inr ⟨dobj, rfl, ?_⟩
          tauto
        · rintro (hnote | ⟨d2, hd2, hrest⟩)
          · exact absurd hnote hn
          · subst hd2
            tauto
  · rw [if_neg ht]
    have ht2 : ¬ c.commentType = "DISEASE" := by
      rw [← beq_iff_eq]
      exact ht
    simp [ht2]

/-- C3 (corrected): for a non-empty subject, the disease-linkage check
succeeds exactly when some DISEASE annotation of the protein matches the
normalised (lower-cased, apostrophe-stripped, subject additionally
trimmed) subject — where the subject occurring inside the candidate
counts for all four candidate fields, but the candidate occurring inside
the subject counts only for the formal disease name and the acronym, not
for the free-text note or the description — or, failing every
annotation, when the normalised subject occurs inside the cleaned
recommended full protein name; matching is case- and
apostrophe-insensitive throughout. -/
theorem diseaseLink_characterisation (e : UniProtEntry) (s : String) (hs : s ≠ "") :
    step5VerifyDiseaseLink e s = true ↔
      ((∃ c ∈ e.comments, c.commentType = "DISEASE" ∧
         (pyIn (normalizeSubject s) (normCand (c.note.getD "")) = true ∨
          ∃ d, c.disease = some d ∧
            (pyIn (normalizeSubject s) (normCand d.diseaseId) = true ∨
             pyIn (normCand d.diseaseId) (normalizeSubject s) = true ∨
             pyIn (normalizeSubject s) (normCand d.description) = true ∨
             pyIn (normalizeSubject s) (normCand d.acronym) = true ∨
             pyIn (normCand d.acronym) (normalizeSubject s) = true))) ∨
       pyIn (normalizeSubject s) (normCand (e.recommendedFullName.getD "")) = true) := by
  unfold step5VerifyDiseaseLink
  have hb : (s == "") = false := by
    simp [hs]
  rw [hb]
  simp only [Bool.false_eq_true, if_false]
  by_cases hAny : e.comments.any (commentMatches (normalizeSubject s))
  · rw [if_pos hAny]
    rw [List.any_eq_true] at hAny
    obtain ⟨c, hc, hm⟩ := hAny
    rw [commentMatches_iff] at hm
    simp only [true_iff]
    exact Or.inl ⟨c, hc, hm⟩
  · rw [if_neg hAny]
    constructor
    · intro hrec
      exact Or.inr hrec
    · rintro (⟨c, hc, hm⟩ | hrec)
      · exact absurd (List.any_eq_true.mpr ⟨c, hc, (commentMatches_iff _ c).mpr hm⟩) hAny
      · exact hrec

/-- Entry exhibiting the asymmetry of the note-field match: one DISEASE
comment whose note text is contained in the subject but does not contain
it. -/
def ceEntry : UniProtEntry :=
  { comments := [{ commentType := "DISEASE", note := some "b" }] }

/-- DISEASE annotation naming the disease by the apostrophe-free
lower-case form of the subject used in the spec's insensitivity
example. -/
def cfComment : UComment :=
  { commentType := "DISEASE", disease := some { diseaseId := "cystic fibrosiss" } }

/-- Entry carrying only `cfComment`. -/
def cfEntry : UniProtEntry :=
  { comments := [cfComment] }

/-- C3 counterexample: at subject "abc" and a protein record whose single
DISEASE annotation has note text "b", the claimed symmetric predicate
(subject contains the candidate) holds, but the code's check fails — so
the check does not succeed exactly when the claim's condition holds. -/
theorem diseaseLink_claim_false :
    step5VerifyDiseaseLink ceEntry "abc" = false ∧
      specDiseaseLinked ceEntry "abc" = true := by
  constructor
  · decide
  · decide

theorem diseaseLink_characterisation_witness :
    step5VerifyDiseaseLink cfEntry "Cystic Fibrosis\x27s" = true := by
  have h := diseaseLink_characterisation cfEntry "Cystic Fibrosis\x27s" (by decide)
  refine h.mpr (Or.inl ⟨cfComment, ?_, rfl, ?_⟩)
  · simp [cfEntry]
  · exact Or.inr ⟨{ diseaseId := "cystic fibrosiss" }, rfl, Or.inl (by decide)⟩

/-- C4: after the validator step on a state with a non-empty hypotheses
sequence, the retry counter grows by exactly 1 and the last rejection
reason is set to the latest report's reason when that report is REJECTED,
and the counter is unchanged and the reason cleared when it is
APPROVED. -/
theorem validator_retry_update (os : Nat → ValOracle) (st : AgentState)
    (l : List Hypothesis) (h : Hypothesis) (hst : st.hypotheses = l ++ [h]) :
    ∀ rep, (processHypothesis (os l.length) st.current_disease h).validation = some rep →
      ((rep.overall_status = "REJECTED" →
          (validatorRun os st).retry_count = some (st.retry_count + 1) ∧
          (validatorRun os st).last_rejection_reason = some (some rep.reason)) ∧
       (rep.overall_status = "APPROVED" →
          (validatorRun os st).retry_count = some st.retry_count ∧
          (validatorRun os st).last_rejection_reason = some none)) := by
  intro rep hrep
  have hrun : validatorRun os st =
      (let validated := validateAll os st.current_disease 0 st.hypotheses
       match validated.getLast? with
       | none =>
           { hypotheses := some validated,
             retry_count := some st.retry_count,
             last_rejection_reason := some none }
       | some latest =>
         let latest_status :=
           ((latest.validation.map ValidationReport.overall_status).getD "REJECTED")
         if latest_status != "APPROVED" then
           { hypotheses := some validated,
             retry_count := some (st.retry_count + 1),
             last_rejection_reason := some (some
               ((latest.validation.map ValidationReport.reason).getD
                 "Unknown validator error")) }
         else
           { hypotheses := some validated,
             retry_count := some st.retry_count,
             last_rejection_reason := some none }) := rfl
  have hlast : (validateAll os st.current_disease 0 st.hypotheses).getLast? =
      some (processHypothesis (os l.length) st.current_disease h) := by
    rw [hst, validateAll_append os st.current_disease l h 0]
    rw [getLast_append_single]
    simp
  constructor
  · intro hrej
    have hcond : (((processHypothesis (os l.length) st.current_disease h).validation.map
        ValidationReport.overall_status).getD "REJECTED" != "APPROVED") = true := by
      rw [hrep]
      simp [Option.map, hrej]
    rw [hrun]
    simp only [hlast]
    rw [if_pos hcond]
    refine ⟨rfl, ?_⟩
    simp [hrep]
  · intro happ
    have hcond : (((processHypothesis (os l.length) st.current_disease h).validation.map
        ValidationReport.overall_status).getD "REJECTED" != "APPROVED") = false := by
      rw [hrep]
      simp [Option.map, happ]
    rw [hrun]
    simp only [hlast]
    rw [if_neg (by simp [hcond])]
    exact ⟨rfl, rfl⟩

/-- C5: the id-mapping polling loop of the source has no attempt or time
ceiling — on a status stream that reports RUNNING forever, the loop is
still polling after every finite number of iterations, so it never
terminates and never surfaces a timeout failure. -/
theorem poll_never_terminates_on_running :
    (∀ fuel i, pollLoop (fun _ => some "RUNNING") fuel i = none) ∧
    (∀ fuel, idMappingPoll (fun _ => some "RUNNING") fuel = none ∧
      getIdMappingResults "job" (fun _ => some "RUNNING")
        ([] : List (PageResp Nat)) fuel = none) := by
  have hloop : ∀ fuel i, pollLoop (fun _ => some "RUNNING") fuel i = none := by
    intro fuel
    induction fuel with
    | zero => intro i; rfl
    | succ n ih =>
      intro i
      have hstep : pollStep (some "RUNNING") = PollAction.keepPolling := rfl
      simp only [pollLoop, hstep]
      exact ih (i + 1)
  refine ⟨hloop, fun fuel => ⟨hloop fuel 0, ?_⟩⟩
  unfold getIdMappingResults idMappingPoll
  rw [hloop fuel 0]

/-- C6 (corrected): one poll iteration keeps polling exactly on a status
response whose status value is anything other than FAILED or FINISHED
(NEW, RUNNING, and every unrecognized value alike); it raises the job
failure exactly on FAILED; it proceeds to the results fetch exactly on
FINISHED or on a response with no status field; and when the poll phase
ends in FINISHED the operation performs the single cursor-link-paginated
results fetch, returning exactly its accumulated pages. -/
theorem idMapping_poll_behaviour (resp : Option String) (jid : String)
    (sts : Nat → Option String) (pages : List (PageResp Nat)) (fuel : Nat)
    (r : List Nat) :
    (pollStep resp = PollAction.fatal ↔ resp = some "FAILED") ∧
    (pollStep resp = PollAction.fetchResults ↔
      (resp = some "FINISHED" ∨ resp = none)) ∧
    (pollStep resp = PollAction.keepPolling ↔
      ∃ s, resp = some s ∧ s ≠ "FAILED" ∧ s ≠ "FINISHED") ∧
    (getIdMappingResults jid sts pages fuel = some (Except.ok r) ↔
      (idMappingPoll sts fuel = some PollOutcome.finished ∧
        r = getUniprotData pages)) ∧
    (getIdMappingResults jid sts pages fuel =
        some (Except.error ("Job " ++ jid ++ " failed.")) ↔
      idMappingPoll sts fuel = some PollOutcome.failed) := by
  refine ⟨?_, ?_, ?_, ?_, ?_⟩
  · cases resp with
    | none => simp [pollStep]
    | some s =>
      by_cases hR : s = "RUNNING"
      · subst hR; simp [pollStep]
      · by_cases hN : s = "NEW"
        · subst hN; simp [pollStep]
        · by_cases hF : s = "FINISHED"
          · subst hF; simp [pollStep]
          · by_cases hX : s = "FAILED"
            · subst hX; simp [pollStep]
            · simp [pollStep, hR, hN, hF, hX]
  · cases resp with
    | none => simp [pollStep]
    | some s =>
      by_cases hR : s = "RUNNING"
      · subst hR; simp [pollStep]
      · by_cases hN : s = "NEW"
        · subst hN; simp [pollStep]
        · by_cases hF : s = "FINISHED"
          · subst hF; simp [pollStep]
          · by_cases hX : s = "FAILED"
            · subst hX; simp [pollStep]
            · simp [pollStep, hR, hN, hF, hX]
  · cases resp with
    | none => simp [pollStep]
    | some s =>
      by_cases hR : s = "RUNNING"
      · subst hR
        simp [pollStep]
      · by_cases hN : s = "NEW"
        · subst hN
          simp [pollStep]
        · by_cases hF : s = "FINISHED"
          · subst hF; simp [pollStep]
          · by_cases hX : s = "FAILED"
            · subst hX; simp [pollStep]
            · simp [pollStep, hR, hN, hF, hX]
  · unfold getIdMappingResults
    cases hp : idMappingPoll sts fuel with
    | none => simp
    | some o =>
      cases o with
      | finished => simp [eq_comm]
      | failed => simp
  · unfold getIdMappingResults
    cases hp : idMappingPoll sts fuel with
    | none => simp
    | some o =>
      cases o with
      | finished => simp
      | failed => simp

/-- C6 counterexample: on the unrecognized status value "SURPRISE" the
claim says the client fails fatally; instead one poll iteration matches no
branch of the elif chain and keeps polling, and after any number of such
responses the operation has produced no outcome at all — in particular no
fatal failure. -/
theorem idMapping_unknown_status_not_fatal :
    pollStep (some "SURPRISE") = PollAction.keepPolling ∧
    pollStep (some "SURPRISE") ≠ PollAction.fatal ∧
    getIdMappingResults "J1" (fun _ => some "SURPRISE")
      ([] : List (PageResp Nat)) 100 = none ∧
    pollStep none = PollAction.fetchResults := by
  exact ⟨rfl, by decide, rfl, rfl⟩

theorem idMapping_poll_behaviour_witness :
    getIdMappingResults "J1"
        (fun i => if i < 2 then some "RUNNING" else some "FINISHED")
        [{ results := [7, 8] }] 10 = some (Except.ok [7, 8]) := by
  have h := idMapping_poll_behaviour (some "RUNNING") "J1"
    (fun i => if i < 2 then some "RUNNING" else some "FINISHED")
    [{ results := [7, 8] }] 10 [7, 8]
  exact (h.2.2.2.1).mpr ⟨by decide, by decide⟩

theorem applyUpdate_keep_hyps (st : AgentState) :
    applyUpdate st { hypotheses := some st.hypotheses } = st := rfl

theorem applyUpdate_keep_hyps_hist (st : AgentState) :
    applyUpdate st
      { hypotheses := some st.hypotheses,
        debate_history := some st.debate_history } = st := rfl

theorem applyUpdate_empty (st : AgentState) : applyUpdate st {} = st := rfl

/-- C7: no failure of the reasoning collaborator or client layer escapes a
step: the proponent and skeptic steps, invoked on any state with a raising
collaborator, return an update whose merge leaves the shared record
unchanged, and the validator step returns a well-formed update (one
validated hypothesis per input hypothesis) for every oracle, raising
included, on every state. -/
theorem step_failures_leave_record_unchanged :
    (∀ (st : AgentState) (m : String),
      applyUpdate st (proponentRun (StepRes.exc m) st) = st) ∧
    (∀ (st : AgentState) (m : String),
      applyUpdate st (skepticRun (StepRes.exc m) st) = st) ∧
    (∀ (os : Nat → ValOracle) (st : AgentState),
      ∃ l, (validatorRun os st).hypotheses = some l ∧
        l.length = st.hypotheses.length) := by
  refine ⟨?_, ?_, ?_⟩
  · intro st m
    unfold proponentRun
    by_cases he : st.genetic_targets.isEmpty
    · rw [if_pos he]
      exact applyUpdate_keep_hyps st
    · rw [if_neg he]
      exact applyUpdate_keep_hyps st
  · intro st m
    rcases List.eq_nil_or_concat st.hypotheses with hnil | ⟨L, b, hcat⟩
    · have key : skepticRun (StepRes.exc m) st =
          { hypotheses := some st.hypotheses,
            debate_history := some st.debate_history } := by
        unfold skepticRun
        rw [hnil]
        rfl
      rw [key]
      exact applyUpdate_keep_hyps_hist st
    · rw [List.concat_eq_append] at hcat
      by_cases hv : pyTruthy b.skeptic_verdict
      · have key : skepticRun (StepRes.exc m) st =
            { hypotheses := some st.hypotheses,
              debate_history := some st.debate_history } := by
          unfold skepticRun
          rw [hcat, getLast_append_single]
          simp [hv]
        rw [key]
        exact applyUpdate_keep_hyps_hist st
      · have key : skepticRun (StepRes.exc m) st = {} := by
          unfold skepticRun
          rw [hcat, getLast_append_single]
          simp [hv]
        rw [key]
        exact applyUpdate_empty st
  · intro os st
    refine ⟨validateAll os st.current_disease 0 st.hypotheses, ?_,
      validateAll_length os st.current_disease 0 st.hypotheses⟩
    unfold validatorRun
    dsimp only
    split
    · rfl
    · split
      · rfl
      · rfl

/-- Well-formed cursor-link page sequence: every page but the last carries
a header from which a next link is extracted, and the last carries
none. -/
inductive WellPaged {α : Type} : List (PageResp α) → Prop where
  | last : ∀ r, getNextLink r.linkHeader = none → WellPaged [r]
  | cons : ∀ r rs, (getNextLink r.linkHeader).isSome = true → WellPaged rs →
      WellPaged (r :: rs)

/-- C8: cursor-link pagination follows the header's next locator until no
locator is present and returns the concatenation of all page payloads in
arrival order. -/
theorem cursor_pagination_complete {α : Type} (ps : List (PageResp α))
    (hw : WellPaged ps) :
    getUniprotData ps = (ps.map PageResp.results).join := by
  induction hw with
  | last r hr => simp [getUniprotData, hr]
  | cons r rs hr hw2 ih =>
    obtain ⟨u, hu⟩ := Option.isSome_iff_exists.mp hr
    simp [getUniprotData, hu, ih]

/-- First page of the 3-page witness scenario: 500 results and a genuine
link header pointing at the next cursor. -/
def wpage1 : PageResp Nat :=
  { results := List.range 500,
    linkHeader :=
      some "<https://rest.uniprot.org/uniprotkb/search?cursor=p2&size=500>; rel=\"next\"" }

/-- Second page: 500 further results and a next link. -/
def wpage2 : PageResp Nat :=
  { results := (List.range 500).map (fun n => 500 + n),
    linkHeader :=
      some "<https://rest.uniprot.org/uniprotkb/search?cursor=p3&size=500>; rel=\"next\"" }

/-- Final page: 120 results and no link header. -/
def wpage3 : PageResp Nat :=
  { results := (List.range 120).map (fun n => 1000 + n) }

theorem cursor_pagination_complete_witness :
    getUniprotData [wpage1, wpage2, wpage3] =
      wpage1.results ++ wpage2.results ++ wpage3.results ∧
    (getUniprotData [wpage1, wpage2, wpage3]).length = 1120 := by
  have hw : WellPaged [wpage1, wpage2, wpage3] := by
    refine WellPaged.cons _ _ ?_ (WellPaged.cons _ _ ?_ (WellPaged.last _ ?_))
    · decide
    · decide
    · decide
  have h := cursor_pagination_complete [wpage1, wpage2, wpage3] hw
  constructor
  · rw [h]
    simp
  · rw [h]
    simp [wpage1, wpage2, wpage3]

/-- C9: the critique step is idempotent — on a state whose most recent
hypothesis already carries a (non-empty) verdict, it returns the
hypotheses and debate history unchanged, for every collaborator oracle,
and merging its update leaves the state as it was. -/
theorem skeptic_idempotent (o : StepRes Critique) (st : AgentState)
    (l : List Hypothesis) (h : Hypothesis) (v : String)
    (hst : st.hypotheses = l ++ [h]) (hv : h.skeptic_verdict = some v)
    (hne : v ≠ "") :
    skepticRun o st =
      { hypotheses := some st.hypotheses,
        debate_history := some st.debate_history } ∧
    applyUpdate st (skepticRun o st) = st := by
  have htruthy : pyTruthy h.skeptic_verdict = true := by
    rw [hv]
    simp only [pyTruthy]
    exact bne_iff_ne.mpr hne
  have key : skepticRun o st =
      { hypotheses := some st.hypotheses,
        debate_history := some st.debate_history } := by
    unfold skepticRun
    rw [hst, getLast_append_single]
    simp [htruthy]
  refine ⟨key, ?_⟩
  rw [key]
  exact applyUpdate_keep_hyps_hist st

/-- Hypothesis already carrying a skeptic verdict, for the C9 witness. -/
def critHyp : Hypothesis :=
  { drug_name := "Metformin", skeptic_verdict := some "SAFE" }

/-- State whose only hypothesis is already critiqued. -/
def critState : AgentState :=
  { hypotheses := [critHyp], debate_history := ["earlier entry"] }

theorem skeptic_idempotent_witness :
    skepticRun (StepRes.val {}) critState =
      { hypotheses := some critState.hypotheses,
        debate_history := some critState.debate_history } ∧
    applyUpdate critState (skepticRun (StepRes.val {}) critState) = critState :=
  skeptic_idempotent (StepRes.val {}) critState [] critHyp "SAFE" rfl rfl (by decide)

theorem explorer_update_no_drugs (pm : StepRes (List String))
    (up : StepRes (List UniProtEntry))
    (shuffle : List GeneticTarget → List GeneticTarget) (st : AgentState) :
    (explorerRun pm up shuffle st).evaluated_drugs = none := by
  unfold explorerRun
  split
  · rfl
  · rfl

theorem skeptic_update_no_drugs (o : StepRes Critique) (st : AgentState) :
    (skepticRun o st).evaluated_drugs = none := by
  unfold skepticRun
  rcases List.eq_nil_or_concat st.hypotheses with hnil | ⟨L, b, hcat⟩
  · rw [hnil]
    rfl
  · rw [List.concat_eq_append] at hcat
    rw [hcat, getLast_append_single]
    by_cases hv : pyTruthy b.skeptic_verdict
    · simp [hv]
    · simp [hv]
      cases o with
      | exc m => rfl
      | val c => rfl

theorem validator_update_no_drugs (os : Nat → ValOracle) (st : AgentState) :
    (validatorRun os st).evaluated_drugs = none := by
  unfold validatorRun
  dsimp only
  split
  · rfl
  · split
    · rfl
    · rfl

theorem applyUpdate_drugs_none (st : AgentState) (u : StateUpdate)
    (h : u.evaluated_drugs = none) :
    (applyUpdate st u).evaluated_drugs = st.evaluated_drugs := by
  simp [applyUpdate, h]

/-- C10: the evaluated-drugs taboo list only grows — every step's merged
update extends the previous list (by nothing or by appended elements,
never removing or replacing one), and a successful proposal appends its
drug name unconditionally, before any validation verdict exists for it. -/
theorem evaluated_drugs_monotone :
    (∀ pm up shuffle (st : AgentState), ∃ t,
      (applyUpdate st (explorerRun pm up shuffle st)).evaluated_drugs =
        st.evaluated_drugs ++ t) ∧
    (∀ (o : StepRes Prediction) (st : AgentState), ∃ t,
      (applyUpdate st (proponentRun o st)).evaluated_drugs =
        st.evaluated_drugs ++ t) ∧
    (∀ (o : StepRes Critique) (st : AgentState), ∃ t,
      (applyUpdate st (skepticRun o st)).evaluated_drugs =
        st.evaluated_drugs ++ t) ∧
    (∀ (os : Nat → ValOracle) (st : AgentState), ∃ t,
      (applyUpdate st (validatorRun os st)).evaluated_drugs =
        st.evaluated_drugs ++ t) ∧
    (∀ (p : Prediction) (st : AgentState), st.genetic_targets ≠ [] →
      (applyUpdate st (proponentRun (StepRes.val p) st)).evaluated_drugs =
        st.evaluated_drugs ++ [p.drug_name]) := by
  refine ⟨?_, ?_, ?_, ?_, ?_⟩
  · intro pm up shuffle st
    refine ⟨[], ?_⟩
    rw [List.append_nil]
    exact applyUpdate_drugs_none st _ (explorer_update_no_drugs pm up shuffle st)
  · intro o st
    unfold proponentRun
    by_cases he : st.genetic_targets.isEmpty
    · rw [if_pos he]
      exact ⟨[], by rw [List.append_nil]; rfl⟩
    · rw [if_neg he]
      cases o with
      | exc m => exact ⟨[], by rw [List.append_nil]; rfl⟩
      | val p => exact ⟨[p.drug_name], rfl⟩
  · intro o st
    refine ⟨[], ?_⟩
    rw [List.append_nil]
    exact applyUpdate_drugs_none st _ (skeptic_update_no_drugs o st)
  · intro os st
    refine ⟨[], ?_⟩
    rw [List.append_nil]
    exact applyUpdate_drugs_none st _ (validator_update_no_drugs os st)
  · intro p st hne
    unfold proponentRun
    have he : st.genetic_targets.isEmpty = false := by
      cases hgt : st.genetic_targets with
      | nil => exact absurd hgt hne
      | cons a t => rfl
    rw [if_neg (by rw [he]; exact Bool.false_ne_true)]
    rfl

/-- State with one gathered target and one previously evaluated drug, for
the C10 witness. -/
def tabooState : AgentState :=
  { genetic_targets := [{}], evaluated_drugs := ["OldDrug"] }

theorem evaluated_drugs_monotone_witness :
    (applyUpdate tabooState
        (proponentRun (StepRes.val { drug_name := "Ivacaftor" }) tabooState)).evaluated_drugs =
      ["OldDrug", "Ivacaftor"] := by
  have h := evaluated_drugs_monotone.2.2.2.2
    { drug_name := "Ivacaftor" } tabooState (by decide)
  exact h.trans (by decide)

/-- Oracle observing a failed compound lookup, for concrete witnesses. -/
def cidMissOracle : ValOracle := { step1 := StepRes.val none }

/-- Hypothesis naming an unresolvable drug, for concrete witnesses. -/
def fakeHyp : Hypothesis := { drug_name := "FakeDrug123", target_gene := "CFTR" }

/-- State holding only `fakeHyp`, two retries already spent. -/
def fakeState : AgentState :=
  { current_disease := "Cystic Fibrosis", hypotheses := [fakeHyp], retry_count := 2 }

theorem validator_report_invariant_witness :
    ∃ rep, (processHypothesis cidMissOracle "Cystic Fibrosis" fakeHyp).validation = some rep ∧
      (rep.overall_status = "APPROVED" ↔
        (rep.step_1_cid_found = true ∧ rep.step_2_target_match = true ∧
         rep.step_3_human_reviewed = true ∧ rep.step_4_disease_link = true)) ∧
      (rep.overall_status = "REJECTED" → rep.reason ≠ "") :=
  validator_report_invariant cidMissOracle "Cystic Fibrosis" fakeHyp

/-- Hypothesis whose attached report is REJECTED, for the C2 witness. -/
def rejHyp : Hypothesis :=
  { drug_name := "Aspirin", target_gene := "BRCA1",
    validation := some { baseReport with reason := "Drug CID not found." } }

/-- State whose latest hypothesis is rejected, with retries left. -/
def rejState : AgentState := { hypotheses := [rejHyp], retry_count := 0 }

theorem should_continue_decision_witness :
    should_continue rejState = Route.proponent := by
  have h := (should_continue_decision rejState).2 [] rejHyp rfl
  exact (h.2 (by decide)).1 (by decide)

theorem validator_retry_update_witness :
    (validatorRun (fun _ => cidMissOracle) fakeState).retry_count = some 3 ∧
    (validatorRun (fun _ => cidMissOracle) fakeState).last_rejection_reason =
      some (some "Drug CID not found.") := by
  have h := validator_retry_update (fun _ => cidMissOracle) fakeState [] fakeHyp rfl
    { baseReport with reason := "Drug CID not found." } (by decide)
  exact h.1 (by decide)

end RareAgent
